import Mathlib

/-!
Shallow embedding of the SystemMonitor core components, translated from the
Python sources:

* `src/metrics/prometheus_exporter.py` — counter-delta tracking inside
  `_update_network_metrics` / `_update_disk_metrics`;
* `src/alerts/alert_manager.py` — `Alert`, `AlertManager` and its
  `check_cpu` / `check_memory` / `check_disk` / `check_gpu` / `check_all`
  methods plus the small state-management helpers;
* `src/storage/database.py` — `HistoricalDatabase` with its five per-domain
  history tables, `store_*`, `get_history`, `cleanup_old_data`,
  `get_statistics`.

Modelling conventions: Python floats become `ℚ`; wall-clock instants
(`datetime.now()`, ISO-8601 `timestamp` strings — which compare
lexicographically exactly as chronologically for a fixed format) become `Nat`
seconds; a Python dict key that may be absent becomes an `Option` field; an
operation that can raise (an SQL query against an unknown table) returns
`Option`.
-/

namespace SystemMonitor

/-! ## Counter-delta tracker

From `prometheus_exporter.py`, `_update_network_metrics` lines 217–245 (and
identically `_update_disk_metrics` lines 177–193): per key the code keeps the
previously observed cumulative value in a dict; on each poll it increments the
exported Prometheus counter by `v - last` only when `last ≤ v`, and then
unconditionally rewrites the stored value to `v`.  A key not yet in the dict
produces no increment (zero delta) and just stores the baseline.

Cumulative values are modelled as `Int` so that non-negativity of the emitted
delta is a meaningful statement.  The per-key state is `Option Int` (`none` =
key absent from `last_network_counters` / `last_disk_counters`). -/

/-- Delta added to the exported counter for one observation of one
(metric, label) key: `0` on first observation or on a reset
(`v < last`), `v - last` otherwise.  Mirrors the guarded
`counter.inc(v - last)` calls in `_update_network_metrics` and
`_update_disk_metrics`. -/
def counterDelta (last : Option Int) (v : Int) : Int :=
  match last with
  | none => 0
  | some l => if l ≤ v then v - l else 0

/-- One poll cycle for one key: the emitted delta together with the new
stored state — the stored value is rewritten to `v` unconditionally
(`self.last_network_counters[interface] = {...}`). -/
def counterStep (last : Option Int) (v : Int) : Int × Option Int :=
  (counterDelta last v, some v)

/-- Deltas emitted by a sequence of observations of one key, starting from
stored state `last`. -/
def runDeltas (last : Option Int) : List Int → List Int
  | [] => []
  | v :: vs => counterDelta last v :: runDeltas (some v) vs

/-- Value of the exported Prometheus counter after the first `n` observations
of `vs` (a Prometheus `Counter` starts at 0 and only ever has the emitted
deltas added to it). -/
def exportedCounter (vs : List Int) (n : Nat) : Int :=
  ((runDeltas none vs).take n).sum

/-! ## Alert engine

From `src/alerts/alert_manager.py`. -/

/-- `AlertLevel` enum. -/
inductive AlertLevel where
  | info
  | warning
  | critical
deriving DecidableEq, Repr

/-- The `Alert` class: all five constructor fields plus the creation
timestamp taken from the clock at `__init__` time (here an explicit
argument of the checking functions).  Equality of this structure is
structural, field by field. -/
structure Alert where
  level : AlertLevel
  metric : String
  message : String
  value : ℚ
  threshold : ℚ
  timestamp : Nat
deriving DecidableEq, Repr

/-- One `{warning, critical}` threshold pair. -/
structure ThresholdPair where
  warning : ℚ
  critical : ℚ
deriving DecidableEq, Repr

/-- The per-domain threshold map held in `self.thresholds`. -/
structure Thresholds where
  cpu : ThresholdPair
  memory : ThresholdPair
  disk : ThresholdPair
  gpu : ThresholdPair
  network : ThresholdPair
deriving DecidableEq, Repr

/-- `_default_thresholds`. -/
def defaultThresholds : Thresholds :=
  { cpu := ⟨70, 90⟩
    memory := ⟨75, 90⟩
    disk := ⟨80, 95⟩
    gpu := ⟨80, 95⟩
    network := ⟨100, 500⟩ }

/-- Rendering of the Python float format `f"{x:.1f}"` (one decimal place),
used only inside alert message strings; modelled as round-half-up at one
decimal on the rational value. -/
def fmt1 (q : ℚ) : String :=
  let n : Int := ⌊q * 10 + 1/2⌋
  toString (n / 10) ++ "." ++ toString (n % 10)

/-- Input of `check_cpu`: the `cpu_data` dict, of which the method reads only
`usage_percent` (defaulting to 0 when absent). -/
structure CpuData where
  usage_percent : Option ℚ
deriving DecidableEq, Repr

/-- `AlertManager.check_cpu`: critical first, else warning, else nothing. -/
def check_cpu (t : Thresholds) (d : CpuData) (now : Nat) : List Alert :=
  let usage := d.usage_percent.getD 0
  if t.cpu.critical ≤ usage then
    [{ level := .critical, metric := "cpu_usage",
       message := "CPU usage critically high at " ++ fmt1 usage ++ "%",
       value := usage, threshold := t.cpu.critical, timestamp := now }]
  else if t.cpu.warning ≤ usage then
    [{ level := .warning, metric := "cpu_usage",
       message := "CPU usage high at " ++ fmt1 usage ++ "%",
       value := usage, threshold := t.cpu.warning, timestamp := now }]
  else []

/-- A `{"percent": ...}` sub-dict of `memory_data` (`virtual` or `swap`). -/
structure PercentDict where
  percent : Option ℚ
deriving DecidableEq, Repr

/-- Input of `check_memory`: the `virtual` and `swap` sub-dicts (either may be
absent; an absent dict yields percent 0 through the chained `.get`). -/
structure MemoryData where
  virtual : Option PercentDict
  swap : Option PercentDict
deriving DecidableEq, Repr

/-- `AlertManager.check_memory`: two independent checks, virtual then swap,
each against the same `memory` threshold pair, critical-first. -/
def check_memory (t : Thresholds) (d : MemoryData) (now : Nat) : List Alert :=
  let virtual_percent := ((d.virtual.getD ⟨none⟩).percent).getD 0
  let swap_percent := ((d.swap.getD ⟨none⟩).percent).getD 0
  let virtualAlerts :=
    if t.memory.critical ≤ virtual_percent then
      [{ level := .critical, metric := "memory_usage",
         message := "Memory usage critically high at " ++ fmt1 virtual_percent ++ "%",
         value := virtual_percent, threshold := t.memory.critical, timestamp := now }]
    else if t.memory.warning ≤ virtual_percent then
      [{ level := .warning, metric := "memory_usage",
         message := "Memory usage high at " ++ fmt1 virtual_percent ++ "%",
         value := virtual_percent, threshold := t.memory.warning, timestamp := now }]
    else []
  let swapAlerts :=
    if t.memory.critical ≤ swap_percent then
      [{ level := .critical, metric := "swap_usage",
         message := "Swap usage critically high at " ++ fmt1 swap_percent ++ "%",
         value := swap_percent, threshold := t.memory.critical, timestamp := now }]
    else if t.memory.warning ≤ swap_percent then
      [{ level := .warning, metric := "swap_usage",
         message := "Swap usage high at " ++ fmt1 swap_percent ++ "%",
         value := swap_percent, threshold := t.memory.warning, timestamp := now }]
    else []
  virtualAlerts ++ swapAlerts

/-- A partition's `usage` dict: `hasError` models presence of the `"error"`
key; `percent` the optional `"percent"` entry. -/
structure DiskUsage where
  hasError : Bool
  percent : Option ℚ
deriving DecidableEq, Repr

/-- One entry of `disk_data["partitions"]`. -/
structure DiskPart where
  mountpoint : Option String
  usage : Option DiskUsage
deriving DecidableEq, Repr

/-- `partition.get("usage", {})`: an absent usage dict behaves as an empty
dict — no error key, no percent. -/
def DiskPart.effUsage (p : DiskPart) : DiskUsage :=
  p.usage.getD ⟨false, none⟩

/-- Alerts contributed by one non-skipped partition (the loop body of
`check_disk` after the `continue` for error entries). -/
def diskPartAlerts (t : Thresholds) (now : Nat) (p : DiskPart) : List Alert :=
  let percent := p.effUsage.percent.getD 0
  let mountpoint := p.mountpoint.getD "unknown"
  if t.disk.critical ≤ percent then
    [{ level := .critical, metric := "disk_usage_" ++ mountpoint,
       message := "Disk usage critically high on " ++ mountpoint ++ " at " ++ fmt1 percent ++ "%",
       value := percent, threshold := t.disk.critical, timestamp := now }]
  else if t.disk.warning ≤ percent then
    [{ level := .warning, metric := "disk_usage_" ++ mountpoint,
       message := "Disk usage high on " ++ mountpoint ++ " at " ++ fmt1 percent ++ "%",
       value := percent, threshold := t.disk.warning, timestamp := now }]
  else []

/-- Input of `check_disk`: the `partitions` list (absent list = empty). -/
structure DiskData where
  partitions : List DiskPart
deriving DecidableEq, Repr

/-- `AlertManager.check_disk`: iterate over partitions, `continue` on an
`"error"` key inside `usage`, otherwise append the threshold alerts. -/
def check_disk (t : Thresholds) (d : DiskData) (now : Nat) : List Alert :=
  d.partitions.flatMap fun p =>
    if p.effUsage.hasError then [] else diskPartAlerts t now p

/-- The nested `utilization` dict of one GPU entry. -/
structure GpuUtilDict where
  gpu : Option ℚ
deriving DecidableEq, Repr

/-- The nested `memory` dict of one GPU entry. -/
structure GpuMemDict where
  percent : Option ℚ
deriving DecidableEq, Repr

/-- One entry of `gpu_data["gpus"]`; `hasError` models presence of the
`"error"` key. -/
structure GpuEntry where
  hasError : Bool
  index : Option Nat
  utilization : Option GpuUtilDict
  memory : Option GpuMemDict
deriving DecidableEq, Repr

/-- Input of `check_gpu`. -/
structure GpuData where
  available : Bool
  gpus : List GpuEntry
deriving DecidableEq, Repr

/-- Alerts contributed by one non-error GPU entry: utilization check then
memory check, critical-first within each. -/
def gpuEntryAlerts (t : Thresholds) (now : Nat) (g : GpuEntry) : List Alert :=
  let gpu_index := g.index.getD 0
  let utilization := ((g.utilization.getD ⟨none⟩).gpu).getD 0
  let memory_percent := ((g.memory.getD ⟨none⟩).percent).getD 0
  let idx := toString gpu_index
  let utilAlerts :=
    if t.gpu.critical ≤ utilization then
      [{ level := .critical, metric := "gpu_utilization_" ++ idx,
         message := "GPU " ++ idx ++ " utilization critically high at " ++ fmt1 utilization ++ "%",
         value := utilization, threshold := t.gpu.critical, timestamp := now }]
    else if t.gpu.warning ≤ utilization then
      [{ level := .warning, metric := "gpu_utilization_" ++ idx,
         message := "GPU " ++ idx ++ " utilization high at " ++ fmt1 utilization ++ "%",
         value := utilization, threshold := t.gpu.warning, timestamp := now }]
    else []
  let memAlerts :=
    if t.gpu.critical ≤ memory_percent then
      [{ level := .critical, metric := "gpu_memory_" ++ idx,
         message := "GPU " ++ idx ++ " memory critically high at " ++ fmt1 memory_percent ++ "%",
         value := memory_percent, threshold := t.gpu.critical, timestamp := now }]
    else if t.gpu.warning ≤ memory_percent then
      [{ level := .warning, metric := "gpu_memory_" ++ idx,
         message := "GPU " ++ idx ++ " memory high at " ++ fmt1 memory_percent ++ "%",
         value := memory_percent, threshold := t.gpu.warning, timestamp := now }]
    else []
  utilAlerts ++ memAlerts

/-- `AlertManager.check_gpu`: nothing when `available` is falsy, else iterate
over `gpus`, skipping error entries. -/
def check_gpu (t : Thresholds) (d : GpuData) (now : Nat) : List Alert :=
  if !d.available then []
  else
    d.gpus.flatMap fun g =>
      if g.hasError then [] else gpuEntryAlerts t now g

/-- The full `monitoring_data` bundle passed to `check_all`; a `none` field
models the corresponding key being absent from the dict. -/
structure MonitoringData where
  cpu : Option CpuData
  memory : Option MemoryData
  disk : Option DiskData
  gpu : Option GpuData
deriving DecidableEq, Repr

/-- An observer callback registered with `register_callback`.  A Python
callback may raise; that is modelled by returning `Except String Unit`. -/
def Callback : Type := Alert → Except String Unit

/-- Mutable fields of an `AlertManager` instance (the logger carries no
specified state and is omitted). -/
structure AlertManagerState where
  thresholds : Thresholds
  active_alerts : List Alert
  alert_history : List Alert
  callbacks : List Callback

/-- `AlertManager.__init__` with an explicit thresholds argument. -/
def AlertManagerState.init (t : Thresholds) : AlertManagerState :=
  { thresholds := t, active_alerts := [], alert_history := [], callbacks := [] }

/-- `register_callback`. -/
def register_callback (s : AlertManagerState) (cb : Callback) : AlertManagerState :=
  { s with callbacks := s.callbacks ++ [cb] }

/-- The callback-dispatch loop of `check_all`: for each alert in order, each
callback is invoked once, in registration order, inside `try/except` — so an
exception is recorded (outcome `false`) and the loop continues.  The returned
trace lists one entry `(alert, callback index, outcome)` per invocation, in
invocation order. -/
def callbackTrace (cbs : List Callback) (alerts : List Alert) :
    List (Alert × Nat × Bool) :=
  alerts.flatMap fun a =>
    cbs.enum.map fun jc =>
      (a, jc.1, match jc.2 a with | .ok _ => true | .error _ => false)

/-- `AlertManager.check_all`: gather the per-domain alerts for the keys
present in `monitoring_data`, overwrite `active_alerts`, extend
`alert_history`, run the callbacks, and return the alert list.  The result
triple is (returned list, new state, callback invocation trace). -/
def check_all (s : AlertManagerState) (data : MonitoringData) (now : Nat) :
    List Alert × AlertManagerState × List (Alert × Nat × Bool) :=
  let all_alerts :=
    (match data.cpu with | some c => check_cpu s.thresholds c now | none => []) ++
    (match data.memory with | some m => check_memory s.thresholds m now | none => []) ++
    (match data.disk with | some d => check_disk s.thresholds d now | none => []) ++
    (match data.gpu with | some g => check_gpu s.thresholds g now | none => [])
  let s' := { s with active_alerts := all_alerts,
                     alert_history := s.alert_history ++ all_alerts }
  (all_alerts, s', callbackTrace s.callbacks all_alerts)

/-- State reached after `check_all` (projection of `check_all`). -/
def stepState (s : AlertManagerState) (data : MonitoringData) (now : Nat) :
    AlertManagerState :=
  (check_all s data now).2.1

/-- `N` successive identical `check_all` calls (same bundle, same clock). -/
def iterateCheck (s : AlertManagerState) (data : MonitoringData) (now : Nat) :
    Nat → AlertManagerState
  | 0 => s
  | n + 1 => iterateCheck (stepState s data now) data now n

/-- `get_alert_history`: Python `if limit:` is false for both `None` and `0`;
a positive limit returns the slice `alert_history[-limit:]`. -/
def get_alert_history (s : AlertManagerState) (limit : Option Nat) : List Alert :=
  match limit with
  | none => s.alert_history
  | some n =>
    if n = 0 then s.alert_history
    else s.alert_history.drop (s.alert_history.length - n)

/-- `clear_alerts`. -/
def clear_alerts (s : AlertManagerState) : AlertManagerState :=
  { s with active_alerts := [] }

/-- `clear_history`. -/
def clear_history (s : AlertManagerState) : AlertManagerState :=
  { s with alert_history := [] }

/-! ## Time-series store

From `src/storage/database.py`.  A row of any of the five history tables is
modelled as a capture timestamp plus an association list from column name to
nullable numeric value (the schemas' REAL/INTEGER columns; the TEXT columns
`mountpoint` / `interface` / `gpu_name` are not needed by any claim's query
and are representable as extra columns if required).  ISO-8601 timestamp
strings of a fixed format compare lexicographically exactly as
chronologically, so the TEXT `timestamp` column is a `Nat` here. -/

/-- One stored row: timestamp column plus named nullable numeric columns. -/
structure Row where
  timestamp : Nat
  cols : List (String × Option ℚ)
deriving DecidableEq, Repr

/-- Column lookup (SQL `SELECT col`): absent column or stored NULL both read
as NULL. -/
def Row.getCol (r : Row) (c : String) : Option ℚ :=
  match r.cols.lookup c with
  | some v => v
  | none => none

/-- The five per-domain history tables of `HistoricalDatabase`. -/
structure DB where
  cpu_history : List Row
  memory_history : List Row
  disk_history : List Row
  network_history : List Row
  gpu_history : List Row
deriving DecidableEq, Repr

/-- The freshly initialised database (`_init_database` creates empty
tables). -/
def DB.empty : DB := ⟨[], [], [], [], []⟩

/-- Table lookup by SQL table name; an unknown name makes the SQL statement
fail, modelled as `none`. -/
def tableOf (db : DB) : String → Option (List Row)
  | "cpu_history" => some db.cpu_history
  | "memory_history" => some db.memory_history
  | "disk_history" => some db.disk_history
  | "network_history" => some db.network_history
  | "gpu_history" => some db.gpu_history
  | _ => none

/-- Total variant of `tableOf` used to state frame properties (unknown table
reads as empty). -/
def tableD (db : DB) (name : String) : List Row :=
  (tableOf db name).getD []

/-- Input of `store_cpu_data`: the fields the INSERT reads from the cpu
dict.  The stored `timestamp` is required (a record without one is outside
every claim's scope). -/
structure CpuStoreInput where
  timestamp : Nat
  usage_percent : Option ℚ
  frequency_current : Option ℚ
  load_avg_1min : Option ℚ
  load_avg_5min : Option ℚ
  load_avg_15min : Option ℚ
deriving DecidableEq, Repr

/-- The row INSERTed by `store_cpu_data`. -/
def rowOfCpu (d : CpuStoreInput) : Row :=
  { timestamp := d.timestamp
    cols := [("usage_percent", d.usage_percent),
             ("frequency_current", d.frequency_current),
             ("load_avg_1min", d.load_avg_1min),
             ("load_avg_5min", d.load_avg_5min),
             ("load_avg_15min", d.load_avg_15min)] }

/-- `store_cpu_data`: one INSERT into `cpu_history`. -/
def store_cpu_data (db : DB) (d : CpuStoreInput) : DB :=
  { db with cpu_history := db.cpu_history ++ [rowOfCpu d] }

/-- The `hours` window cutoff `(datetime.now() - timedelta(hours=hours))`,
with time in seconds. -/
def cutoffTime (now hours : Nat) : Nat := now - 3600 * hours

/-- The SQL `LIMIT` clause of `get_history`: appended only when `limit` is
truthy in Python, i.e. not `None` and not `0`. -/
def applyLimit (limit : Option Nat) (rows : List Row) : List Row :=
  match limit with
  | none => rows
  | some n => if n = 0 then rows else rows.take n

/-- `get_history`: `SELECT * FROM {table} WHERE timestamp >= cutoff ORDER BY
timestamp DESC [LIMIT n]`.  Unknown table name = SQL error = `none`. -/
def get_history (db : DB) (table : String) (hours : Nat) (limit : Option Nat)
    (now : Nat) : Option (List Row) :=
  match tableOf db table with
  | none => none
  | some rows =>
    let cutoff := cutoffTime now hours
    let filtered := rows.filter fun r => decide (cutoff ≤ r.timestamp)
    some (applyLimit limit (filtered.mergeSort fun a b => decide (b.timestamp ≤ a.timestamp)))

/-- `DELETE FROM {table} WHERE timestamp < cutoff` on one table. -/
def purgeTable (cutoff : Nat) (rows : List Row) : List Row :=
  rows.filter fun r => !decide (r.timestamp < cutoff)

/-- `cleanup_old_data`: the DELETE runs over all five tables with cutoff
`now - retention_hours`. -/
def cleanup_old_data (db : DB) (retention_hours : Nat) (now : Nat) : DB :=
  let cutoff := cutoffTime now retention_hours
  { cpu_history := purgeTable cutoff db.cpu_history
    memory_history := purgeTable cutoff db.memory_history
    disk_history := purgeTable cutoff db.disk_history
    network_history := purgeTable cutoff db.network_history
    gpu_history := purgeTable cutoff db.gpu_history }

/-- The dict returned by a successful `get_statistics` call (the non-`{}`
branch). -/
structure Stats where
  min : Option ℚ
  max : Option ℚ
  avg : Option ℚ
  count : Nat
  hours : Nat
deriving DecidableEq, Repr

/-- The `if/elif` chain of `get_statistics` choosing the aggregated column;
every other table name (including `network_history`) falls into the `else:
return {}` branch. -/
def metricOf : String → Option String
  | "cpu_history" => some "usage_percent"
  | "memory_history" => some "virtual_percent"
  | "disk_history" => some "percent"
  | "gpu_history" => some "utilization_gpu"
  | _ => none

/-- SQL `MIN` over the non-NULL values of a column (NULL when none). -/
def sqlMin : List ℚ → Option ℚ
  | [] => none
  | x :: xs => some (match sqlMin xs with | none => x | some m => min x m)

/-- SQL `MAX` over the non-NULL values of a column (NULL when none). -/
def sqlMax : List ℚ → Option ℚ
  | [] => none
  | x :: xs => some (match sqlMax xs with | none => x | some m => max x m)

/-- SQL `AVG` over the non-NULL values of a column (NULL when none). -/
def sqlAvg (l : List ℚ) : Option ℚ :=
  match l with
  | [] => none
  | _ => some (l.sum / l.length)

/-- `get_statistics`: choose the canonical column by table name (else return
the empty dict, i.e. `none`), then `SELECT MIN(c), MAX(c), AVG(c), COUNT( * )
FROM {table} WHERE timestamp >= cutoff`; `COUNT( * )` counts every row in the
window, the other aggregates skip NULLs. -/
def get_statistics (db : DB) (table : String) (hours now : Nat) : Option Stats :=
  match metricOf table with
  | none => none
  | some metric =>
    match tableOf db table with
    | none => none
    | some rows =>
      let window := rows.filter fun r => decide (cutoffTime now hours ≤ r.timestamp)
      let vals := window.filterMap fun r => r.getCol metric
      some { min := sqlMin vals, max := sqlMax vals, avg := sqlAvg vals,
             count := window.length, hours := hours }

/-- Modelled from the spec (§4.2): `summarize(domain, since) → {min, max,
avg, count}` over the single canonical numeric field associated with that
domain, restricted to the window of the last `hours` hours.  Stated
independently of `get_statistics` as the specification-side aggregate, for
the refinement theorem of claim C8. -/
def summarize (field : String) (rows : List Row) (hours now : Nat) : Stats :=
  let window := rows.filter fun r => decide (cutoffTime now hours ≤ r.timestamp)
  let vals := window.filterMap fun r => r.getCol field
  { min := sqlMin vals, max := sqlMax vals, avg := sqlAvg vals,
    count := window.length, hours := hours }

/-- Number of alerts in a list with a given level and metric key. -/
def countLM (alerts : List Alert) (lvl : AlertLevel) (m : String) : Nat :=
  alerts.countP fun a => decide (a.level = lvl ∧ a.metric = m)

/-! ## Helper lemmas -/

theorem counterDelta_nonneg (last : Option Int) (v : Int) :
    0 ≤ counterDelta last v := by
  cases last with
  | none => simp [counterDelta]
  | some l =>
    simp only [counterDelta]
    split <;> omega

theorem runDeltas_nonneg (vs : List Int) :
    ∀ (last : Option Int), ∀ x ∈ runDeltas last vs, 0 ≤ x := by
  induction vs with
  | nil => intro last x hx; simp [runDeltas] at hx
  | cons v vs ih =>
    intro last x hx
    simp only [runDeltas, List.mem_cons] at hx
    rcases hx with h | h
    · subst h; exact counterDelta_nonneg last v
    · exact ih (some v) x h

theorem exportedCounter_step (vs : List Int) (n : Nat) :
    exportedCounter vs n ≤ exportedCounter vs (n + 1) := by
  unfold exportedCounter
  rw [List.take_succ, List.sum_append]
  have h : 0 ≤ ((runDeltas none vs)[n]?.toList).sum := by
    cases hn : (runDeltas none vs)[n]? with
    | none => simp
    | some x =>
      have hx : x ∈ runDeltas none vs := List.getElem?_mem hn
      simpa using runDeltas_nonneg vs none x hx
  linarith

theorem check_all_fst_congr (s₁ s₂ : AlertManagerState) (data : MonitoringData)
    (now : Nat) (h : s₁.thresholds = s₂.thresholds) :
    (check_all s₁ data now).1 = (check_all s₂ data now).1 := by
  simp [check_all, h]

theorem callbackTrace_proj (cbs : List Callback) (alerts : List Alert) :
    (callbackTrace cbs alerts).map (fun x => (x.1, x.2.1)) =
      alerts.flatMap fun a => (List.range cbs.length).map fun j => (a, j) := by
  unfold callbackTrace
  rw [List.map_flatMap]
  congr 1
  funext a
  rw [List.map_map]
  have h2 : ((fun x : Alert × Nat × Bool => (x.1, x.2.1)) ∘
      fun jc : Nat × Callback =>
        (a, jc.1, match jc.2 a with | .ok _ => true | .error _ => false)) =
      (fun j => (a, j)) ∘ Prod.fst := rfl
  rw [h2, ← List.map_map, List.enum_map_fst]

theorem iterateCheck_history_length (data : MonitoringData) (now : Nat) :
    ∀ (N : Nat) (s : AlertManagerState),
      (iterateCheck s data now N).alert_history.length =
        s.alert_history.length + N * (check_all s data now).1.length := by
  intro N
  induction N with
  | zero => intro s; simp [iterateCheck]
  | succ k ih =>
    intro s
    have h1 : iterateCheck s data now (k + 1) =
        iterateCheck (stepState s data now) data now k := rfl
    rw [h1, ih (stepState s data now)]
    have h2 : (check_all (stepState s data now) data now).1 =
        (check_all s data now).1 :=
      check_all_fst_congr _ _ data now rfl
    have h3 : (stepState s data now).alert_history.length =
        s.alert_history.length + (check_all s data now).1.length := by
      simp [stepState, check_all]
    rw [h2, h3]
    ring

/-! ## Claim theorems -/

/-- C1: for every counter key, the first observation stores the value as a
baseline and emits a zero delta; a later observation with
`cumulative_value ≥ last_value` emits `cumulative_value - last_value` and
updates the stored state; one with `cumulative_value < last_value` emits a
zero delta and rebaselines the stored state to the new value; the
observation sequence 100, 150, 90, 140 at one fixed key emits deltas
0, 50, 0, 50; no emitted delta is ever negative, so the exported counter is
non-decreasing. -/
theorem C1_counter_delta :
    (∀ v : Int, counterStep none v = (0, some v)) ∧
    (∀ l v : Int, l ≤ v → counterStep (some l) v = (v - l, some v)) ∧
    (∀ l v : Int, v < l → counterStep (some l) v = (0, some v)) ∧
    runDeltas none [100, 150, 90, 140] = [0, 50, 0, 50] ∧
    (∀ (last : Option Int) (v : Int), 0 ≤ counterDelta last v) ∧
    (∀ (vs : List Int) (m n : Nat), m ≤ n →
      exportedCounter vs m ≤ exportedCounter vs n) := by
  refine ⟨fun v => rfl, ?_, ?_, by decide, counterDelta_nonneg, ?_⟩
  · intro l v h
    simp [counterStep, counterDelta, h]
  · intro l v h
    simp [counterStep, counterDelta, not_le.mpr h]
  · intro vs m n hmn
    induction n with
    | zero => simp [Nat.le_zero.mp hmn]
    | succ k ih =>
      rcases Nat.lt_or_ge m (k + 1) with hlt | hge
      · exact (ih (Nat.lt_succ_iff.mp hlt)).trans (exportedCounter_step vs k)
      · have : m = k + 1 := le_antisymm hmn hge
        simp [this]

/-- Witness for C1: the advance and rebaseline transitions evaluated at
concrete inputs, with the hypotheses discharged there. -/
theorem C1_counter_delta_witness :
    counterStep (some 100) 150 = (50, some 150) ∧
    counterStep (some 150) 90 = (0, some 90) ∧
    exportedCounter [100, 150, 90, 140] 2 ≤ exportedCounter [100, 150, 90, 140] 4 := by
  refine ⟨?_, ?_, ?_⟩
  · simpa using C1_counter_delta.2.1 100 150 (by norm_num)
  · simpa using C1_counter_delta.2.2.1 150 90 (by norm_num)
  · exact C1_counter_delta.2.2.2.2.2 [100, 150, 90, 140] 2 4 (by norm_num)

/-- C2: with sane thresholds (`warning ≤ critical`), a CPU snapshot with
usage `v` yields no `cpu_usage` alert when `v` is below warning, exactly one
warning and no critical alert when `warning ≤ v < critical`, and exactly one
critical and no warning alert when `v ≥ critical` — never both for the same
measurement in one cycle. -/
theorem C2_cpu_thresholds (t : Thresholds) (v : ℚ) (now : Nat)
    (hwc : t.cpu.warning ≤ t.cpu.critical) :
    (v < t.cpu.warning → check_cpu t ⟨some v⟩ now = []) ∧
    (t.cpu.warning ≤ v → v < t.cpu.critical →
      countLM (check_cpu t ⟨some v⟩ now) .warning "cpu_usage" = 1 ∧
      countLM (check_cpu t ⟨some v⟩ now) .critical "cpu_usage" = 0) ∧
    (t.cpu.critical ≤ v →
      countLM (check_cpu t ⟨some v⟩ now) .critical "cpu_usage" = 1 ∧
      countLM (check_cpu t ⟨some v⟩ now) .warning "cpu_usage" = 0) := by
  refine ⟨?_, ?_, ?_⟩
  · intro h
    have hc : ¬ t.cpu.critical ≤ v := fun hcv => absurd (hwc.trans hcv) (not_le.mpr h)
    simp [check_cpu, hc, not_le.mpr h]
  · intro hw hv
    simp [check_cpu, countLM, not_le.mpr hv, hw, List.countP_cons]
  · intro hc
    simp [check_cpu, countLM, hc, List.countP_cons]

/-- Witness for C2: the default thresholds (warning 70 ≤ critical 90) with
usage 95 give one critical and no warning alert; usage 75 gives one warning
and no critical; usage 10 gives none. -/
theorem C2_cpu_thresholds_witness :
    check_cpu defaultThresholds ⟨some 10⟩ 0 = [] ∧
    countLM (check_cpu defaultThresholds ⟨some 75⟩ 0) .warning "cpu_usage" = 1 ∧
    countLM (check_cpu defaultThresholds ⟨some 95⟩ 0) .critical "cpu_usage" = 1 := by
  refine ⟨?_, ?_, ?_⟩
  · exact (C2_cpu_thresholds defaultThresholds 10 0 (by norm_num [defaultThresholds])).1
      (by norm_num [defaultThresholds])
  · exact ((C2_cpu_thresholds defaultThresholds 75 0 (by norm_num [defaultThresholds])).2.1
      (by norm_num [defaultThresholds]) (by norm_num [defaultThresholds])).1
  · exact ((C2_cpu_thresholds defaultThresholds 95 0 (by norm_num [defaultThresholds])).2.2
      (by norm_num [defaultThresholds])).1

/-- C10: `clear_alerts` empties the active-alert set and leaves history,
thresholds and callbacks unchanged; `clear_history` empties the history and
leaves the active set, thresholds and callbacks unchanged. -/
theorem C10_clear_frames (s : AlertManagerState) :
    (clear_alerts s).active_alerts = [] ∧
    (clear_alerts s).alert_history = s.alert_history ∧
    (clear_alerts s).thresholds = s.thresholds ∧
    (clear_alerts s).callbacks = s.callbacks ∧
    (clear_history s).alert_history = [] ∧
    (clear_history s).active_alerts = s.active_alerts ∧
    (clear_history s).thresholds = s.thresholds ∧
    (clear_history s).callbacks = s.callbacks :=
  ⟨rfl, rfl, rfl, rfl, rfl, rfl, rfl, rfl⟩

/-- C5: on every call `check_all` (1) replaces the active-alert set with
exactly the alerts produced this cycle, (2) appends all produced alerts to
the history log, (3) invokes every registered callback once per alert in
alert-list order (the trace projection below holds for every callback list,
raising ones included, so a raised exception is caught, aborts nothing, and
affects neither other callbacks nor other alerts), and the returned list
depends only on the thresholds — not on the callbacks or on any previous
alert state. -/
theorem C5_check_all_side_effects (s : AlertManagerState) (data : MonitoringData)
    (now : Nat) :
    (check_all s data now).2.1.active_alerts = (check_all s data now).1 ∧
    (check_all s data now).2.1.alert_history =
      s.alert_history ++ (check_all s data now).1 ∧
    (check_all s data now).2.1.thresholds = s.thresholds ∧
    (check_all s data now).2.1.callbacks = s.callbacks ∧
    ((check_all s data now).2.2.map fun x => (x.1, x.2.1)) =
      (check_all s data now).1.flatMap
        (fun a => (List.range s.callbacks.length).map fun j => (a, j)) ∧
    (∀ s₂ : AlertManagerState, s₂.thresholds = s.thresholds →
      (check_all s₂ data now).1 = (check_all s data now).1) := by
  refine ⟨rfl, rfl, rfl, rfl, ?_, ?_⟩
  · exact callbackTrace_proj s.callbacks (check_all s data now).1
  · intro s₂ h
    exact check_all_fst_congr s₂ s data now h

/-- Witness for C5: a manager with one always-raising callback returns the
same alert list as a freshly initialised manager with no callbacks, on a
bundle whose CPU usage 95 breaches the default critical threshold. -/
theorem C5_check_all_side_effects_witness :
    (check_all
      { thresholds := defaultThresholds, active_alerts := [], alert_history := [],
        callbacks := [fun _ => Except.error ("boom")] }
      ⟨some ⟨some 95⟩, none, none, none⟩ 0).1 =
    (check_all (AlertManagerState.init defaultThresholds)
      ⟨some ⟨some 95⟩, none, none, none⟩ 0).1 :=
  (C5_check_all_side_effects (AlertManagerState.init defaultThresholds)
    ⟨some ⟨some 95⟩, none, none, none⟩ 0).2.2.2.2.2
    { thresholds := defaultThresholds, active_alerts := [], alert_history := [],
      callbacks := [fun _ => Except.error ("boom")] } rfl

/-- C6: for a fixed input bundle and capture instant, a repeated `check_all`
call returns a structurally equal alert list (all fields, timestamp
included), and each call appends anew to history: after `N` identical calls
the history has grown by `N` times the per-call alert count — in particular
it has length exactly `N` when the history starts empty and each call
produces one alert. -/
theorem C6_evaluate_repeatable (s : AlertManagerState) (data : MonitoringData)
    (now : Nat) :
    (check_all (stepState s data now) data now).1 = (check_all s data now).1 ∧
    (∀ N, (iterateCheck s data now N).alert_history.length =
      s.alert_history.length + N * (check_all s data now).1.length) ∧
    (s.alert_history = [] → (check_all s data now).1.length = 1 →
      ∀ N, (iterateCheck s data now N).alert_history.length = N) := by
  refine ⟨check_all_fst_congr _ _ data now rfl,
    fun N => iterateCheck_history_length data now N s, ?_⟩
  intro h0 h1 N
  rw [iterateCheck_history_length data now N s, h0, h1]
  simp

/-- Witness for C6: three identical calls on an initially empty manager,
each producing exactly one (critical CPU) alert, leave a history of length
three. -/
theorem C6_evaluate_repeatable_witness :
    (iterateCheck (AlertManagerState.init defaultThresholds)
      ⟨some ⟨some 95⟩, none, none, none⟩ 0 3).alert_history.length = 3 :=
  (C6_evaluate_repeatable (AlertManagerState.init defaultThresholds)
    ⟨some ⟨some 95⟩, none, none, none⟩ 0).2.2 rfl (by decide) 3

theorem string_append_cancel_left (s a b : String) (h : s ++ a = s ++ b) :
    a = b := by
  have hd : (s ++ a).data = (s ++ b).data := by rw [h]
  rw [String.data_append, String.data_append] at hd
  exact String.ext (List.append_cancel_left hd)

theorem check_disk_eq_filter (t : Thresholds) (parts : List DiskPart) (now : Nat) :
    check_disk t ⟨parts⟩ now =
      (parts.filter fun p => !p.effUsage.hasError).flatMap (diskPartAlerts t now) := by
  induction parts with
  | nil => rfl
  | cons p ps ih =>
    simp only [check_disk] at ih ⊢
    cases h : p.effUsage.hasError with
    | true => simp [List.flatMap_cons, List.filter_cons, h, ih]
    | false => simp [List.flatMap_cons, List.filter_cons, h, ih]

theorem diskPartAlerts_metric (t : Thresholds) (now : Nat) (p : DiskPart) :
    ∀ a ∈ diskPartAlerts t now p,
      a.metric = "disk_usage_" ++ p.mountpoint.getD "unknown" := by
  intro a ha
  simp only [diskPartAlerts] at ha
  split at ha
  · simp only [List.mem_singleton] at ha
    subst ha; rfl
  · split at ha
    · simp only [List.mem_singleton] at ha
      subst ha; rfl
    · simp at ha

/-- C4: `check_disk` evaluates exactly the partitions without an error
marker (the marked ones contribute no alert); every alert of a partition
carries the metric key `disk_usage_<mountpoint>`, so partitions with
distinct mountpoints never share an alert key; and the spec scenario — one
error-marked partition plus one healthy partition at 85% under thresholds
warning 80 / critical 95 — produces exactly one warning alert, for the
healthy partition only. -/
theorem C4_disk_partitions (t : Thresholds) (parts : List DiskPart) (now : Nat) :
    check_disk t ⟨parts⟩ now =
      (parts.filter fun p => !p.effUsage.hasError).flatMap (diskPartAlerts t now) ∧
    (∀ p : DiskPart, ∀ a ∈ diskPartAlerts t now p,
      a.metric = "disk_usage_" ++ p.mountpoint.getD "unknown") ∧
    (∀ p q : DiskPart,
      p.mountpoint.getD "unknown" ≠ q.mountpoint.getD "unknown" →
      ∀ a ∈ diskPartAlerts t now p, ∀ b ∈ diskPartAlerts t now q,
        a.metric ≠ b.metric) ∧
    check_disk defaultThresholds
      ⟨[{ mountpoint := some "/bad", usage := some ⟨true, some 99⟩ },
        { mountpoint := some "/data", usage := some ⟨false, some 85⟩ }]⟩ now =
      [{ level := .warning, metric := "disk_usage_" ++ "/data",
         message := "Disk usage high on " ++ "/data" ++ " at " ++ fmt1 85 ++ "%",
         value := 85, threshold := 80, timestamp := now }] := by
  refine ⟨check_disk_eq_filter t parts now, diskPartAlerts_metric t now, ?_, ?_⟩
  · intro p q hpq a ha b hb hab
    apply hpq
    have hpa := diskPartAlerts_metric t now p a ha
    have hqb := diskPartAlerts_metric t now q b hb
    exact string_append_cancel_left "disk_usage_" _ _ ((hpa.symm.trans hab).trans hqb)
  · rfl

/-- Witness for C4: the two scenario partitions have distinct mountpoints,
so their (potential) alerts carry distinct metric keys; evaluated at the
healthy partition's warning alert against an alert of a second partition at
90%. -/
theorem C4_disk_partitions_witness :
    ∃ a ∈ diskPartAlerts defaultThresholds 0
        { mountpoint := some "/data", usage := some ⟨false, some 85⟩ },
      ∃ b ∈ diskPartAlerts defaultThresholds 0
          { mountpoint := some "/other", usage := some ⟨false, some 90⟩ },
        a.metric ≠ b.metric := by
  refine
    ⟨{ level := .warning, metric := "disk_usage_" ++ "/data",
       message := "Disk usage high on " ++ "/data" ++ " at " ++ fmt1 85 ++ "%",
       value := 85, threshold := 80, timestamp := 0 },
     List.mem_singleton.mpr rfl,
     { level := .warning, metric := "disk_usage_" ++ "/other",
       message := "Disk usage high on " ++ "/other" ++ " at " ++ fmt1 90 ++ "%",
       value := 90, threshold := 80, timestamp := 0 },
     List.mem_singleton.mpr rfl, ?_⟩
  exact (C4_disk_partitions defaultThresholds [] 0).2.2.1
    { mountpoint := some "/data", usage := some ⟨false, some 85⟩ }
    { mountpoint := some "/other", usage := some ⟨false, some 90⟩ }
    (by decide)
    _ (List.mem_singleton.mpr rfl)
    _ (List.mem_singleton.mpr rfl)

theorem purgeTable_eq_filter (c : Nat) (l : List Row) :
    purgeTable c l = l.filter fun r => decide (c ≤ r.timestamp) := by
  unfold purgeTable
  apply List.filter_congr
  intro r _
  by_cases h : r.timestamp < c
  · have h2 : ¬ c ≤ r.timestamp := by omega
    simp [h, h2]
  · have h2 : c ≤ r.timestamp := by omega
    simp [h, h2]

theorem tableD_cleanup (db : DB) (R now : Nat) (name : String) :
    tableD (cleanup_old_data db R now) name =
      (tableD db name).filter fun r => decide (cutoffTime now R ≤ r.timestamp) := by
  unfold tableD tableOf cleanup_old_data
  split <;> simp [purgeTable_eq_filter]

theorem get_history_some (db : DB) (name : String) (hours : Nat)
    (limit : Option Nat) (now : Nat) (rows : List Row)
    (h : get_history db name hours limit now = some rows) :
    ∀ r ∈ rows, r ∈ tableD db name ∧ cutoffTime now hours ≤ r.timestamp := by
  unfold get_history at h
  cases htab : tableOf db name with
  | none => rw [htab] at h; cases h
  | some l =>
    rw [htab] at h
    injection h with h
    subst h
    intro r hr
    have h1 : r ∈ (l.filter fun r => decide (cutoffTime now hours ≤ r.timestamp)).mergeSort
        (fun a b => decide (b.timestamp ≤ a.timestamp)) := by
      cases limit with
      | none => exact hr
      | some n =>
        by_cases hn : n = 0
        · simpa [applyLimit, hn] using hr
        · exact List.take_subset _ _ (by simpa [applyLimit, hn] using hr)
    have h2 := (List.mergeSort_perm _ _).mem_iff.mp h1
    have h3 := List.mem_filter.mp h2
    exact ⟨by simp [tableD, htab, h3.1], of_decide_eq_true h3.2⟩

/-- C3: `cleanup_old_data` keeps, in every one of the five tables, exactly
the records whose timestamp is not older than `now - retention`; afterwards
no query of any window returns a record older than the retention; and the
spec scenario — retention 24 h, records of age 1 h, 23 h, 25 h and 48 h —
keeps exactly the 1 h and 23 h records. -/
theorem C3_purge (db : DB) (R now : Nat) :
    (∀ name : String, tableD (cleanup_old_data db R now) name =
      (tableD db name).filter fun r => decide (cutoffTime now R ≤ r.timestamp)) ∧
    (∀ (name : String) (r : Row), r ∈ tableD (cleanup_old_data db R now) name →
      cutoffTime now R ≤ r.timestamp) ∧
    (∀ (name : String) (hours : Nat) (limit : Option Nat) (rows : List Row),
      get_history (cleanup_old_data db R now) name hours limit now = some rows →
      ∀ r ∈ rows, cutoffTime now R ≤ r.timestamp) ∧
    cleanup_old_data
      { cpu_history := [⟨196400, []⟩, ⟨117200, []⟩, ⟨110000, []⟩, ⟨27200, []⟩],
        memory_history := [], disk_history := [], network_history := [],
        gpu_history := [] } 24 200000 =
      { cpu_history := [⟨196400, []⟩, ⟨117200, []⟩],
        memory_history := [], disk_history := [], network_history := [],
        gpu_history := [] } := by
  refine ⟨tableD_cleanup db R now, ?_, ?_, by decide⟩
  · intro name r hr
    rw [tableD_cleanup] at hr
    exact of_decide_eq_true (List.mem_filter.mp hr).2
  · intro name hours limit rows h r hr
    have h1 := (get_history_some _ name hours limit now rows h r hr).1
    rw [tableD_cleanup] at h1
    exact of_decide_eq_true (List.mem_filter.mp h1).2

/-- Witness for C3: a record of age 25 h is no longer present after a 24 h
purge, checked through the membership consequence of the theorem. -/
theorem C3_purge_witness :
    (110000 : Nat) < cutoffTime 200000 24 ∧
    ∀ r ∈ tableD (cleanup_old_data
      { cpu_history := [⟨110000, []⟩], memory_history := [], disk_history := [],
        network_history := [], gpu_history := [] } 24 200000) "cpu_history",
      cutoffTime 200000 24 ≤ r.timestamp := by
  constructor
  · decide
  · intro r hr
    exact (C3_purge
      { cpu_history := [⟨110000, []⟩], memory_history := [], disk_history := [],
        network_history := [], gpu_history := [] } 24 200000).2.1 "cpu_history" r hr

theorem get_history_sorted (db : DB) (name : String) (hours : Nat)
    (limit : Option Nat) (now : Nat) :
    ((get_history db name hours limit now).getD []).Pairwise
      (fun a b => b.timestamp ≤ a.timestamp) := by
  unfold get_history
  cases htab : tableOf db name with
  | none => simp
  | some l =>
    simp only [Option.getD_some]
    have hsorted : ((l.filter fun r => decide (cutoffTime now hours ≤ r.timestamp)).mergeSort
        (fun a b => decide (b.timestamp ≤ a.timestamp))).Pairwise
        (fun a b => b.timestamp ≤ a.timestamp) := by
      have h := @List.sorted_mergeSort Row
        (fun a b : Row => decide (b.timestamp ≤ a.timestamp))
        (fun a b c hab hbc => by
          simp only [decide_eq_true_eq] at hab hbc ⊢
          exact le_trans hbc hab)
        (fun a b => by
          rcases Nat.le_total b.timestamp a.timestamp with h | h <;> simp [h])
        (l.filter fun r => decide (cutoffTime now hours ≤ r.timestamp))
      exact h.imp fun hab => of_decide_eq_true hab
    cases limit with
    | none => exact hsorted
    | some n =>
      by_cases hn : n = 0
      · simpa [applyLimit, hn] using hsorted
      · simpa [applyLimit, hn] using hsorted.sublist (List.take_sublist n _)

/-- C7: a record appended through `store_cpu_data` is returned verbatim by
any later unlimited `get_history` query whose window covers its timestamp;
every `get_history` result is ordered most-recent-first (non-increasing
timestamps); and a non-zero limit truncates the query result to its first
`limit` records. -/
theorem C7_roundtrip (db : DB) (d : CpuStoreInput) (hours now : Nat) :
    (cutoffTime now hours ≤ d.timestamp →
      rowOfCpu d ∈
        (get_history (store_cpu_data db d) "cpu_history" hours none now).getD []) ∧
    (∀ (name : String) (limit : Option Nat),
      ((get_history db name hours limit now).getD []).Pairwise
        (fun a b => b.timestamp ≤ a.timestamp)) ∧
    (∀ (name : String) (n : Nat), n ≠ 0 →
      (get_history db name hours (some n) now).getD [] =
        ((get_history db name hours none now).getD []).take n) := by
  refine ⟨?_, fun name limit => get_history_sorted db name hours limit now, ?_⟩
  · intro hcut
    unfold get_history store_cpu_data tableOf
    simp only [Option.getD_some, applyLimit]
    rw [(List.mergeSort_perm _ _).mem_iff]
    refine List.mem_filter.mpr ⟨?_, by simpa [rowOfCpu] using hcut⟩
    simp
  · intro name n hn
    unfold get_history
    cases htab : tableOf db name with
    | none => simp
    | some l => simp [applyLimit, hn]

/-- Witness for C7: a concrete record stored into an empty database is
returned by a 24-hour query issued within its window. -/
theorem C7_roundtrip_witness :
    rowOfCpu ⟨190000, some 3, none, none, none, none⟩ ∈
      (get_history (store_cpu_data DB.empty ⟨190000, some 3, none, none, none, none⟩)
        "cpu_history" 24 none 200000).getD [] :=
  (C7_roundtrip DB.empty ⟨190000, some 3, none, none, none, none⟩ 24 200000).1
    (by decide)

theorem sqlMin_spec (l : List ℚ) (m : ℚ) (h : sqlMin l = some m) :
    m ∈ l ∧ ∀ v ∈ l, m ≤ v := by
  induction l generalizing m with
  | nil => cases h
  | cons x xs ih =>
    simp only [sqlMin] at h
    injection h with h
    cases hxs : sqlMin xs with
    | none =>
      rw [hxs] at h
      cases xs with
      | nil => subst h; simp
      | cons y ys => simp [sqlMin] at hxs
    | some k =>
      rw [hxs] at h
      obtain ⟨hkmem, hklb⟩ := ih k hxs
      subst h
      constructor
      · rcases le_total x k with hxk | hkx
        · simp [min_eq_left hxk]
        · simp only [List.mem_cons]
          exact Or.inr (by rwa [min_eq_right hkx])
      · intro v hv
        rcases List.mem_cons.mp hv with hv | hv
        · subst hv; exact min_le_left _ _
        · exact le_trans (min_le_right x k) (hklb v hv)

theorem sqlMax_spec (l : List ℚ) (m : ℚ) (h : sqlMax l = some m) :
    m ∈ l ∧ ∀ v ∈ l, v ≤ m := by
  induction l generalizing m with
  | nil => cases h
  | cons x xs ih =>
    simp only [sqlMax] at h
    injection h with h
    cases hxs : sqlMax xs with
    | none =>
      rw [hxs] at h
      cases xs with
      | nil => subst h; simp
      | cons y ys => simp [sqlMax] at hxs
    | some k =>
      rw [hxs] at h
      obtain ⟨hkmem, hkub⟩ := ih k hxs
      subst h
      constructor
      · rcases le_total x k with hxk | hkx
        · simp only [List.mem_cons]
          exact Or.inr (by rwa [max_eq_right hxk])
        · simp [max_eq_left hkx]
      · intro v hv
        rcases List.mem_cons.mp hv with hv | hv
        · subst hv; exact le_max_left _ _
        · exact le_trans (hkub v hv) (le_max_right x k)

/-- The non-NULL values, in the query window, of one column of a table. -/
def windowVals (field : String) (rows : List Row) (hours now : Nat) : List ℚ :=
  (rows.filter fun r => decide (cutoffTime now hours ≤ r.timestamp)).filterMap
    fun r => r.getCol field

/-- C8: `get_statistics` on the network table returns the empty dict for
every database and window — there is no canonical metric for the network
domain — while on the cpu, memory, disk and gpu tables it returns the §4.2
`summarize` aggregate over that domain's canonical column (`usage_percent`,
`virtual_percent`, `percent`, `utilization_gpu`); the reported minimum (when
present) is a value actually attained by a row in the window and a lower
bound of all in-window values of the column, and symmetrically for the
maximum. -/
theorem C8_statistics_dispatch (db : DB) (hours now : Nat) :
    get_statistics db "network_history" hours now = none ∧
    get_statistics db "cpu_history" hours now =
      some (summarize "usage_percent" db.cpu_history hours now) ∧
    get_statistics db "memory_history" hours now =
      some (summarize "virtual_percent" db.memory_history hours now) ∧
    get_statistics db "disk_history" hours now =
      some (summarize "percent" db.disk_history hours now) ∧
    get_statistics db "gpu_history" hours now =
      some (summarize "utilization_gpu" db.gpu_history hours now) ∧
    (∀ (field : String) (rows : List Row) (m : ℚ),
      (summarize field rows hours now).min = some m →
        m ∈ windowVals field rows hours now ∧
        ∀ v ∈ windowVals field rows hours now, m ≤ v) ∧
    (∀ (field : String) (rows : List Row) (m : ℚ),
      (summarize field rows hours now).max = some m →
        m ∈ windowVals field rows hours now ∧
        ∀ v ∈ windowVals field rows hours now, v ≤ m) := by
  refine ⟨rfl, rfl, rfl, rfl, rfl, ?_, ?_⟩
  · intro field rows m h
    exact sqlMin_spec (windowVals field rows hours now) m h
  · intro field rows m h
    exact sqlMax_spec (windowVals field rows hours now) m h

/-- Witness for C8: on a cpu table with in-window usage values 3 and 7 the
statistics are min 3, max 7, avg 5 over 2 rows, while the network table of
the same database yields the empty dict. -/
theorem C8_statistics_dispatch_witness :
    (get_statistics
      { cpu_history := [⟨190000, [("usage_percent", some 3)]⟩,
                        ⟨195000, [("usage_percent", some 7)]⟩],
        memory_history := [], disk_history := [],
        network_history := [⟨190000, [("bytes_sent", some 1)]⟩],
        gpu_history := [] } "cpu_history" 24 200000).map
      (fun s => (s.min, s.max, s.count)) = some (some 3, some 7, 2) ∧
    (get_statistics
      { cpu_history := [⟨190000, [("usage_percent", some 3)]⟩,
                        ⟨195000, [("usage_percent", some 7)]⟩],
        memory_history := [], disk_history := [],
        network_history := [⟨190000, [("bytes_sent", some 1)]⟩],
        gpu_history := [] } "cpu_history" 24 200000).map
      (fun s => s.avg) = some (some 5) ∧
    get_statistics
      { cpu_history := [⟨190000, [("usage_percent", some 3)]⟩,
                        ⟨195000, [("usage_percent", some 7)]⟩],
        memory_history := [], disk_history := [],
        network_history := [⟨190000, [("bytes_sent", some 1)]⟩],
        gpu_history := [] } "network_history" 24 200000 = none := by
  refine ⟨by decide, ?_, ?_⟩
  · show some (sqlAvg [3, 7]) = some (some 5)
    norm_num [sqlAvg]
  · exact (C8_statistics_dispatch
      { cpu_history := [⟨190000, [("usage_percent", some 3)]⟩,
                        ⟨195000, [("usage_percent", some 7)]⟩],
        memory_history := [], disk_history := [],
        network_history := [⟨190000, [("bytes_sent", some 1)]⟩],
        gpu_history := [] } 24 200000).1

/-- C9: a limit of 0 behaves exactly like no limit for both `get_history`
and `get_alert_history` (Python `if limit:` is false for 0), returning the
full window-filtered result, while a positive limit truncates: `get_history`
keeps the first `n` records of the unlimited result and `get_alert_history`
keeps the last `n` (a suffix) of the history. -/
theorem C9_zero_limit (db : DB) (table : String) (hours now : Nat)
    (s : AlertManagerState) :
    get_history db table hours (some 0) now = get_history db table hours none now ∧
    get_alert_history s (some 0) = get_alert_history s none ∧
    (∀ n : Nat, n ≠ 0 →
      ((get_history db table hours (some n) now).getD []).length ≤ n ∧
      (get_history db table hours (some n) now).getD [] =
        ((get_history db table hours none now).getD []).take n) ∧
    (∀ n : Nat, n ≠ 0 →
      (get_alert_history s (some n)).length = min n s.alert_history.length ∧
      ∃ pre, s.alert_history = pre ++ get_alert_history s (some n)) := by
  refine ⟨?_, rfl, ?_, ?_⟩
  · unfold get_history
    cases htab : tableOf db table with
    | none => rfl
    | some l => simp [applyLimit]
  · intro n hn
    have htake : (get_history db table hours (some n) now).getD [] =
        ((get_history db table hours none now).getD []).take n := by
      unfold get_history
      cases htab : tableOf db table with
      | none => simp
      | some l => simp [applyLimit, hn]
    refine ⟨?_, htake⟩
    rw [htake]
    simp [Nat.min_le_left]
  · intro n hn
    unfold get_alert_history
    simp only [hn, if_false]
    constructor
    · rw [List.length_drop]
      omega
    · exact ⟨s.alert_history.take (s.alert_history.length - n),
        (List.take_append_drop _ _).symm⟩

/-- Witness for C9: a two-alert history is returned in full under limit 0,
evaluated through the theorem. -/
theorem C9_zero_limit_witness :
    get_alert_history
      { thresholds := defaultThresholds, active_alerts := [],
        alert_history := [⟨.info, "a", "b", 1, 2, 3⟩, ⟨.warning, "c", "d", 4, 5, 6⟩],
        callbacks := [] } (some 0) =
      [⟨.info, "a", "b", 1, 2, 3⟩, ⟨.warning, "c", "d", 4, 5, 6⟩] := by
  rw [(C9_zero_limit DB.empty "cpu_history" 1 0
    { thresholds := defaultThresholds, active_alerts := [],
      alert_history := [⟨.info, "a", "b", 1, 2, 3⟩, ⟨.warning, "c", "d", 4, 5, 6⟩],
      callbacks := [] }).2.1]
  rfl

end SystemMonitor
